import Mathlib

/-!
Verification of the `cc-skills` repository's script cluster
(component scaffolder, style validator, type generator) against its
natural-language specification.

The embedding works on `List Char` (JavaScript strings are sequences of
code units; all inputs considered here are plain ASCII-range text), with
`String` at the API boundary.  Machine integers do not occur: all counts
are `Nat`.
-/

set_option maxRecDepth 10000

namespace CCSkills

/-! ## Basic string utilities (JS semantics on `List Char`) -/

/-- The `\x7b` character (left curly brace), named so that no raw brace
appears outside string escapes. -/
def lbrace : Char := Char.ofNat 123

/-- The `\x7d` character (right curly brace). -/
def rbrace : Char := Char.ofNat 125

/-- JS `str.split(sep)` for a one-character separator: cut at every
occurrence, keeping empty fragments (`"a\n\nb"` gives three parts). -/
def splitOnChar (sep : Char) : List Char → List (List Char)
  | [] => [[]]
  | c :: rest =>
    if c = sep then [] :: splitOnChar sep rest
    else
      match splitOnChar sep rest with
      | [] => [[c]]
      | first :: others => (c :: first) :: others

/-- JS `String.prototype.trim`: whitespace stripped from both ends. -/
def trimL (l : List Char) : List Char :=
  ((l.dropWhile Char.isWhitespace).reverse.dropWhile Char.isWhitespace).reverse

/-- JS `a.startsWith(p)` on char lists. -/
def startsWithL (p l : List Char) : Bool :=
  p.isPrefixOf l

/-- Scanning substring test: JS `a.includes(p)` on char lists. -/
def hasSub (pat : List Char) : List Char → Bool
  | [] => pat.isEmpty
  | c :: rest => pat.isPrefixOf (c :: rest) || hasSub pat rest

/-- A word character in the sense of the regex class `\w`. -/
def isWordChar (c : Char) : Bool :=
  c.isAlpha || c.isDigit || c = '_'

/-- Helper of `wordRuns`: one pass over the line, accumulating the current
run of word characters in reverse. -/
def wordRunsAux : List Char → List Char → List (List Char)
  | [], acc => if acc = [] then [] else [acc.reverse]
  | c :: rest, acc =>
    if isWordChar c then wordRunsAux rest (c :: acc)
    else if acc = [] then wordRunsAux rest [] else acc.reverse :: wordRunsAux rest []

/-- The maximal runs of word characters of a line, in order.  A regex match
of the shape `\b...\b` made only of word characters is contained in exactly
one such run. -/
def wordRuns (l : List Char) : List (List Char) := wordRunsAux l []

/-! ## Style validator (style-validator.js) -/

/-- One reported violation, as built by `validateCSS` / `validateFile`. -/
structure ValidationIssue where
  line : Nat
  rule : String
  message : String
  content : String
deriving DecidableEq, Repr

/-- Message of the `classNaming` rule. -/
def classNamingMsg : String :=
  "Class names should use camelCase starting with a lowercase letter"

/-- Message of the `noIds` rule. -/
def noIdsMsg : String := "Avoid using ID selectors (#) in CSS modules"

/-- Message of the `noUniversal` rule. -/
def noUniversalMsg : String := "Avoid using universal selector (*) in CSS modules"

/-- Message of the `noImportant` rule. -/
def noImportantMsg : String := "Avoid using !important in CSS modules"

/-- Message of the `preferRelativeUnits` rule for a given `px` count, as the
template literal in the source builds it. -/
def preferRelativeUnitsMsg (pxMatches : Nat) : String :=
  "Found " ++ toString pxMatches ++ " px units. Consider using rem/em for better accessibility"

/-- The `classNaming` pattern `^[a-z][a-zA-Z0-9]*$` as an anchored whole-string
test on the selector. -/
def classNamingTest (sel : List Char) : Bool :=
  match sel with
  | [] => false
  | c :: rest => ('a' ≤ c && c ≤ 'z') && rest.all (fun d => d.isAlpha || d.isDigit)

/-- The `noIds` pattern `^[^#]*$`: passes when the selector has no `#`. -/
def noIdsTest (sel : List Char) : Bool := !sel.contains '#'

/-- The `noUniversal` pattern `^[^*]*$`: passes when the selector has no `*`. -/
def noUniversalTest (sel : List Char) : Bool := !sel.contains '*'

/-- The `noImportant` pattern `^[^!]*$`: passes when the selector has no `!`. -/
def noImportantTest (sel : List Char) : Bool := !sel.contains '!'

/-- Is a word run a match of `\b\d+px\b`, i.e. one or more digits followed by
exactly `px`?  (A `\b...\b` match of word characters must cover a full run.) -/
def isPxRun (run : List Char) : Bool :=
  run.takeWhile Char.isDigit ≠ [] && run.dropWhile Char.isDigit = ['p', 'x']

/-- Is a word run a match of `\b\d+(rem|em)\b`? -/
def isRemEmRun (run : List Char) : Bool :=
  run.takeWhile Char.isDigit ≠ [] &&
    (run.dropWhile Char.isDigit = ['r', 'e', 'm'] || run.dropWhile Char.isDigit = ['e', 'm'])

/-- `(css.match(/\b\d+px\b/g) || []).length` of `preferRelativeUnits.validate`. -/
def pxMatches (l : List Char) : Nat := ((wordRuns l).filter isPxRun).length

/-- `(css.match(/\b\d+(rem|em)\b/g) || []).length` of `preferRelativeUnits.validate`. -/
def remEmMatches (l : List Char) : Nat := ((wordRuns l).filter isRemEmRun).length

/-- `trimmed.split(sep)[0]`: the text before the first occurrence of `sep`
(the whole string when `sep` is absent). -/
def beforeFirst (sep : Char) (l : List Char) : List Char :=
  l.takeWhile (fun c => c ≠ sep)

/-- The `(rule, message, content)` triples `validateCSS` reports for one line,
in source order.  The selector-pattern rules run in the insertion order of
`validationRules` (`classNaming`, `noIds`, `noUniversal`, `noImportant`;
`preferRelativeUnits` has no `pattern` and is skipped there).  The source's
`rule content` check `if (validationRules.noImportant.validate)` is dead code:
`noImportant` has a `pattern` but no `validate` property, so that branch never
runs and is not part of the behaviour. -/
def lineHits (rawLine : List Char) : List (String × String × String) :=
  let trimmed := trimL rawLine
  if trimmed.isEmpty || startsWithL ('/' :: '*' :: []) trimmed
      || startsWithL ('/' :: '/' :: []) trimmed then
    []
  else
    let selectorHits :=
      if trimmed.contains lbrace then
        let selector := trimL (beforeFirst lbrace trimmed)
        (if !classNamingTest selector then
          [("classNaming", classNamingMsg, String.mk selector)] else [])
        ++ (if !noIdsTest selector then
          [("noIds", noIdsMsg, String.mk selector)] else [])
        ++ (if !noUniversalTest selector then
          [("noUniversal", noUniversalMsg, String.mk selector)] else [])
        ++ (if !noImportantTest selector then
          [("noImportant", noImportantMsg, String.mk selector)] else [])
      else []
    let px := pxMatches trimmed
    let remEm := remEmMatches trimmed
    let pxHits :=
      if !(remEm > 0 || px = 0) then
        [("preferRelativeUnits", preferRelativeUnitsMsg px, String.mk trimmed)]
      else []
    selectorHits ++ pxHits

/-- `validateCSS(content, filePath)`: split on newlines, check every line,
report issues with 1-based line numbers in order. -/
def validateCSS (content : String) : List ValidationIssue :=
  ((splitOnChar '\n' content.data).enum).flatMap fun p =>
    (lineHits p.2).map fun h => ⟨p.1 + 1, h.1, h.2.1, h.2.2⟩

/-- `validateFile(filePath)`: the file's content validated, or — when reading
the file fails with message `e` — the single synthetic `fileError` issue the
catch branch builds, carrying `line: 0`. -/
def validateFile (readResult : Except String String) : List ValidationIssue :=
  match readResult with
  | Except.ok content => validateCSS content
  | Except.error e => [⟨0, "fileError", "Could not read file: " ++ e, ""⟩]

/-! ## Claims about the style validator -/

/-- Claim C1 (code bug): the spec expects `.myClass \x7b color: red; \x7d` with no
`px` usage to yield zero issues, but `validateCSS` reports a `classNaming`
violation on that very line: the camelCase pattern is tested against the
selector text including its leading dot, so the (well-named) class selector
fails the rule the code's own message describes.  This theorem evaluates the
code at the failing input. -/
theorem c1_spotless_module_still_flagged :
    validateCSS ".myClass \x7b color: red; \x7d" =
      [⟨1, "classNaming", classNamingMsg, ".myClass"⟩] := by
  decide

/-- Claim C5 (code bug): a declaration line using `!important` yields no
`noImportant` issue.  On the input `.box \x7b` / `  color: red !important;` / `\x7d`
the only issue is the `classNaming` one on line 1: the `noImportant`
content check in the source is dead (`validationRules.noImportant` has no
`validate` property), and lines without an opening brace are never matched
against the selector patterns at all. -/
theorem c5_important_line_not_flagged :
    validateCSS ".box \x7b\n  color: red !important;\n\x7d" =
      [⟨1, "classNaming", classNamingMsg, ".box"⟩] := by
  decide

/-- Claim C9, counterexample: the synthetic `fileError` issue produced on a
file-read failure carries `line: 0`, so not every issue the validator returns
has a 1-based line number. -/
theorem c9_fileError_line_zero :
    ¬ (∀ issue ∈ validateFile (Except.error "ENOENT"), 1 ≤ issue.line) := by
  decide

/-- Claim C9, amended: every issue produced by `validateCSS` (hence by
`validateFile` on a readable file) carries a 1-based line number; only the
synthetic `fileError` issue of the read-failure path carries `line: 0`. -/
theorem c9_validateCSS_lines_one_based (content : String) (issue : ValidationIssue)
    (h : issue ∈ validateCSS content) : 1 ≤ issue.line := by
  rcases List.mem_flatMap.mp h with ⟨p, _, hmem⟩
  rcases List.mem_map.mp hmem with ⟨hit, _, rfl⟩
  exact Nat.le_add_left 1 p.1

/-- Witness for `c9_validateCSS_lines_one_based` at a concrete input. -/
theorem c9_validateCSS_lines_one_based_witness :
    ((⟨1, "classNaming", classNamingMsg, "#top"⟩ : ValidationIssue)
        ∈ validateCSS "#top \x7b color: blue; \x7d")
      ∧ 1 ≤ (⟨1, "classNaming", classNamingMsg, "#top"⟩ : ValidationIssue).line :=
  ⟨by decide, c9_validateCSS_lines_one_based "#top \x7b color: blue; \x7d" _ (by decide)⟩

/-- The selector `validateCSS` extracts from a trimmed line containing an
opening brace: the text before the first brace, trimmed. -/
def selectorOf (trimmed : List Char) : List Char :=
  trimL (beforeFirst lbrace trimmed)

/-- Claim C10: every non-blank, non-comment line containing an opening brace
whose selector text begins with a dot (an ordinary CSS-module class selector)
is reported with a `classNaming` issue at that line, because the camelCase
pattern `^[a-z][a-zA-Z0-9]*$` is matched against the selector including the
leading `.`. -/
theorem c10_class_selector_always_flagged (content : String) (i : Nat) (line : List Char)
    (hline : (splitOnChar '\n' content.data)[i]? = some line)
    (hne : (trimL line).isEmpty = false)
    (hnc1 : startsWithL ('/' :: '*' :: []) (trimL line) = false)
    (hnc2 : startsWithL ('/' :: '/' :: []) (trimL line) = false)
    (hbrace : (trimL line).contains lbrace = true)
    (hdot : (selectorOf (trimL line)).head? = some '.') :
    (⟨i + 1, "classNaming", classNamingMsg, String.mk (selectorOf (trimL line))⟩
        : ValidationIssue) ∈ validateCSS content := by
  have hmem : (i, line) ∈ (splitOnChar '\n' content.data).enum :=
    List.mem_enum_iff_getElem?.mpr hline
  refine List.mem_flatMap.mpr ⟨(i, line), hmem, ?_⟩
  refine List.mem_map.mpr
    ⟨("classNaming", classNamingMsg, String.mk (selectorOf (trimL line))), ?_, rfl⟩
  have hfail : classNamingTest (selectorOf (trimL line)) = false := by
    rcases hsel : selectorOf (trimL line) with _ | ⟨c, rest⟩
    · rw [hsel] at hdot; cases hdot
    · rw [hsel] at hdot
      simp only [List.head?] at hdot
      have hc : c = '.' := by injection hdot
      subst hc
      simp [classNamingTest]
  simp only [lineHits, hne, hnc1, hnc2, Bool.false_or, Bool.or_self, if_false,
    hbrace, if_true, selectorOf] at *
  rw [hfail]
  simp

/-- Witness for `c10_class_selector_always_flagged` at a concrete input. -/
theorem c10_class_selector_always_flagged_witness :
    (⟨1, "classNaming", classNamingMsg, ".card"⟩ : ValidationIssue)
      ∈ validateCSS ".card \x7b padding: 1rem; \x7d" :=
  c10_class_selector_always_flagged ".card \x7b padding: 1rem; \x7d" 0
    ".card \x7b padding: 1rem; \x7d".data (by decide) (by decide) (by decide)
    (by decide) (by decide) (by decide)

/-! ## Type generator (type-generator.ts): data model -/

/-- A parsed JSON value, as `JSON.parse` hands it to `generateFromJSON`.
Numbers are modelled as integers (no claim involves fractional numbers). -/
inductive JsonVal where
  | null : JsonVal
  | bool : Bool → JsonVal
  | num : Int → JsonVal
  | str : String → JsonVal
  | arr : List JsonVal → JsonVal
  | obj : List (String × JsonVal) → JsonVal

/-- JS property access `v.key`: `none` models `undefined`.  Objects coming
from `JSON.parse` have distinct keys, so first-match lookup is exact. -/
def jsGet (v : JsonVal) (key : String) : Option JsonVal :=
  match v with
  | JsonVal.obj fields => fields.lookup key
  | _ => none

/-- JS truthiness of a JSON value (`NaN` cannot arise here). -/
def jsTruthy (v : JsonVal) : Bool :=
  match v with
  | JsonVal.null => false
  | JsonVal.bool b => b
  | JsonVal.num n => n != 0
  | JsonVal.str s => !s.isEmpty
  | JsonVal.arr _ => true
  | JsonVal.obj _ => true

/-- JS truthiness of a possibly-missing value (`undefined` is falsy). -/
def jsTruthyOpt (v : Option JsonVal) : Bool :=
  match v with
  | none => false
  | some v => jsTruthy v

/-- The TS `Property` interface of type-generator.ts. -/
structure Property where
  name : String
  type : String
  required : Bool
  description : Option String
deriving DecidableEq

/-- The TS `Schema` interface of type-generator.ts. -/
structure Schema where
  name : String
  properties : List Property
  interfaces : List String

/-- The joined property lines of `generateTypeScriptTypes` (its local
`props` value).  The `prop.description ?` truthiness check means an empty
description string emits no comment. -/
def propsBlock (properties : List Property) : String :=
  String.intercalate "\n"
    (properties.map fun prop =>
      let optional := if prop.required then "" else "?"
      let comment :=
        match prop.description with
        | some d => if d.isEmpty then "" else "  /** " ++ d ++ " */\n"
        | none => ""
      comment ++ "  " ++ prop.name ++ optional ++ ": " ++ prop.type ++ ";")

/-- `generateTypeScriptTypes(schema)`: the import lines, then the interface,
a blank line, and the `...Props` interface carrying the identical field
list. -/
def generateTypeScriptTypes (schema : Schema) : String :=
  let imports :=
    if schema.interfaces.isEmpty then ""
    else
      String.intercalate "\n"
        (schema.interfaces.map fun i =>
          "import \x7b " ++ i ++ " \x7d from './" ++ i ++ "';") ++ "\n\n"
  let props := propsBlock schema.properties
  let interfaceDefinition :=
    "export interface " ++ schema.name ++ " \x7b\n" ++ props ++ "\n\x7d"
  let propsInterface :=
    "export interface " ++ schema.name ++ "Props \x7b\n" ++ props ++ "\n\x7d"
  imports ++ interfaceDefinition ++ "\n\n" ++ propsInterface ++ "\n"

/-! ## Type generator: the JSON-schema path -/

/-- `Object.entries(jsonSchema.properties)` under the `if (jsonSchema.properties)`
truthiness guard: the entries when `properties` is an object, else none.
(A truthy non-object `properties` value is outside the embedding's domain;
`wfJsonSchema` below excludes it.) -/
def jsonEntries (jsonSchema : JsonVal) : List (String × JsonVal) :=
  match jsGet jsonSchema "properties" with
  | some (JsonVal.obj entries) => entries
  | _ => []

/-- `jsonSchema.required?.includes(key) || false`.  When `required` is an
array, `includes` compares with strict equality, so only a string element
equal to `key` counts.  (In JS a non-array, non-nullish `required` would
throw or do substring search; `wfJsonSchema` excludes that shape.) -/
def requiredContains (jsonSchema : JsonVal) (key : String) : Bool :=
  match jsGet jsonSchema "required" with
  | some (JsonVal.arr xs) =>
    xs.any fun v => match v with | JsonVal.str s => s = key | _ => false
  | _ => false

/-- `prop.items?.type || 'any'` of the `array` case: the declared item type
when it is a truthy value, else `"any"`. -/
def jsonItemType (prop : JsonVal) : String :=
  match jsGet prop "items" with
  | some items =>
    match jsGet items "type" with
    | some (JsonVal.str s) => if s.isEmpty then "any" else s
    | _ => "any"
  | none => "any"

/-- The `switch (prop.type)` of `generateFromJSON`: the TypeScript type text
for one declared property. -/
def jsonTsType (prop : JsonVal) : String :=
  match jsGet prop "type" with
  | some (JsonVal.str "string") => "string"
  | some (JsonVal.str "number") => "number"
  | some (JsonVal.str "boolean") => "boolean"
  | some (JsonVal.str "array") => jsonItemType prop ++ "[]"
  | some (JsonVal.str "object") =>
    if jsTruthyOpt (jsGet prop "additionalProperties") then "Record<string, any>"
    else "object"
  | _ => "any"

/-- The property list `generateFromJSON` builds before calling
`generateTypeScriptTypes`. -/
def generateFromJSONProps (jsonSchema : JsonVal) : List Property :=
  (jsonEntries jsonSchema).map fun kv =>
    { name := kv.1
      type := jsonTsType kv.2
      required := requiredContains jsonSchema kv.1
      description :=
        match jsGet kv.2 "description" with
        | some (JsonVal.str d) => some d
        | _ => none }

/-- `generateFromJSON(jsonSchema, typeName)`. -/
def generateFromJSON (jsonSchema : JsonVal) (typeName : String) : String :=
  generateTypeScriptTypes
    { name := typeName, properties := generateFromJSONProps jsonSchema, interfaces := [] }

/-! ## Type generator: the GraphQL path -/

/-- JS whitespace class `\s` (ASCII fragment; schema texts are ASCII). -/
def jsSpace (c : Char) : Bool := c.isWhitespace

/-- `type.replace('!', '')` with a string pattern: remove the first
occurrence only. -/
def removeFirstBang : List Char → List Char
  | [] => []
  | c :: rest => if c = '!' then rest else c :: removeFirstBang rest

/-- The regex `/^\s*(\w+)(\!?):\s*([^\s]+)/` applied to a field line: leading
whitespace, a maximal word run as the name, an optional `!`, a colon, optional
whitespace, then a maximal non-space run as the type.  Greedy matching with
backtracking agrees with this direct reading because a shorter name capture
would leave a word character where `!` or `:` is required. -/
def gqlMatch (line : List Char) : Option Property :=
  let afterWs := line.dropWhile jsSpace
  let name := afterWs.takeWhile isWordChar
  if name.isEmpty then none
  else
    let afterName := afterWs.dropWhile isWordChar
    let hasBang := afterName.head? = some '!'
    let afterBang := if hasBang then afterName.tail else afterName
    match afterBang with
    | ':' :: afterColon =>
      let ty := (afterColon.dropWhile jsSpace).takeWhile (fun c => !jsSpace c)
      if ty.isEmpty then none
      else
        some
          { name := String.mk name
            type := String.mk (removeFirstBang ty)
            required := hasBang
            description := none }
    | _ => none

/-- The `for (const line of lines)` loop of `generateFromGraphQL`: skip lines
until one contains the `type <Name>` marker (any such line re-arms the flag
and is itself skipped), then collect field matches until a line containing a
closing brace. -/
def gqlScan (marker : List Char) : List (List Char) → Bool → List Property
  | [], _ => []
  | l :: rest, inTarget =>
    if hasSub marker l then gqlScan marker rest true
    else if inTarget then
      if l.contains rbrace then []
      else if !(trimL l).isEmpty && !startsWithL ['#'] l then
        match gqlMatch l with
        | some p => p :: gqlScan marker rest true
        | none => gqlScan marker rest true
      else gqlScan marker rest true
    else gqlScan marker rest false

/-- `generateFromGraphQL(schema, typeName)`: `Except.error` models the
`throw new Error(...)` when no line contains the `type <Name>` substring. -/
def generateFromGraphQL (schema : String) (typeName : String) : Except String String :=
  let lines := splitOnChar '\n' schema.data
  let marker := ("type " ++ typeName).data
  if !(lines.any fun l => hasSub marker l) then
    Except.error ("Type " ++ typeName ++ " not found in GraphQL schema")
  else
    Except.ok
      (generateTypeScriptTypes
        { name := typeName, properties := gqlScan marker lines false, interfaces := [] })

/-! ## Claims about the type generator -/

/-- Decidable equality for `Except` results, for concrete evaluation. -/
instance {e a : Type} [DecidableEq e] [DecidableEq a] : DecidableEq (Except e a) := fun x y =>
  match x, y with
  | Except.ok v, Except.ok w => decidable_of_iff (v = w) (by simp)
  | Except.error v, Except.error w => decidable_of_iff (v = w) (by simp)
  | Except.ok _, Except.error _ => isFalse (by simp)
  | Except.error _, Except.ok _ => isFalse (by simp)

/-- Claim C2 (code bug): for the schema `type User \x7b id: ID! name: String \x7d`
(one field per line, as a GraphQL schema file is written) the generator emits
`id?: ID;` — optional — although GraphQL's `ID!` declares the field non-null.
The required-detection regex `(\w+)(\!?):` looks for a `!` between the field
name and the colon, a position where valid GraphQL never puts it, while
`type.replace('!', '')` strips the actual `!` from the type, so no
well-formed GraphQL field is ever marked required.  This theorem evaluates
the code at the failing input. -/
theorem c2_nonnull_field_emitted_optional :
    generateFromGraphQL "type User \x7b\n  id: ID!\n  name: String\n\x7d" "User" =
      Except.ok
        ("export interface User \x7b\n  id?: ID;\n  name?: String;\n\x7d\n\n" ++
          "export interface UserProps \x7b\n  id?: ID;\n  name?: String;\n\x7d\n") := by
  decide

/-- Does a line of the schema declare the named type, in the sense of the
spec's words: its trimmed text starts with `type <Name>` followed by nothing
or a non-word character?  (Second definition, written from the spec, to be
compared with the code's substring test.) -/
def declaresType (schema : String) (typeName : String) : Bool :=
  (splitOnChar '\n' schema.data).any fun l =>
    let t := trimL l
    let marker := ("type " ++ typeName).data
    startsWithL marker t &&
      (match t.drop marker.length with
       | [] => true
       | c :: _ => !isWordChar c)

/-- Claim C3, counterexample: the schema `type UserProfile \x7b id: ID \x7d` does
not declare a type `User`, yet `generateFromGraphQL` does not throw for the
type name `User` — the existence check is a substring test, and `type User`
occurs inside `type UserProfile` — and it silently emits an interface for the
absent type. -/
theorem c3_absent_type_still_generates :
    declaresType "type UserProfile \x7b\n  id: ID\n\x7d" "User" = false ∧
      generateFromGraphQL "type UserProfile \x7b\n  id: ID\n\x7d" "User" =
        Except.ok
          ("export interface User \x7b\n  id?: ID;\n\x7d\n\n" ++
            "export interface UserProps \x7b\n  id?: ID;\n\x7d\n") := by
  constructor
  · decide
  · decide

/-- Is the result an `Except.error`? -/
def isErr {ε α : Type} (r : Except ε α) : Bool :=
  match r with
  | Except.error _ => true
  | Except.ok _ => false

/-- Claim C3, amended: `generateFromGraphQL` fails with the descriptive error
exactly when no line of the schema contains the substring `type <Name>`; when
some line contains that substring — even inside a longer type name or a
comment — it does not fail and may emit output for an absent type. -/
theorem c3_error_iff_no_marker_line (schema : String) (typeName : String) :
    isErr (generateFromGraphQL schema typeName) =
      ((splitOnChar '\n' schema.data).all fun l =>
        !hasSub (("type " ++ typeName).data) l) := by
  rw [generateFromGraphQL]
  split <;> rename_i hcond
  · rw [Bool.not_eq_true'] at hcond
    simp only [isErr]
    rw [eq_comm, List.all_eq_true]
    intro x hx
    rw [List.any_eq_false] at hcond
    rw [Bool.not_eq_true_eq_eq_false]
    exact Bool.eq_false_iff.mpr fun hc => hcond x hx hc
  · have hany : ((splitOnChar '\n' schema.data).any fun l =>
        hasSub (("type " ++ typeName).data) l) = true := by
      revert hcond
      simp
    simp only [isErr]
    rw [eq_comm, List.all_eq_false]
    rw [List.any_eq_true] at hany
    obtain ⟨x, hx, hsub⟩ := hany
    refine ⟨x, hx, ?_⟩
    simp only [Bool.not_eq_true_eq_eq_false, Bool.not_eq_false_eq_eq_true]
    intro hc
    rw [hsub] at hc
    cases hc

/-! ### Claim C4: the JSON fixed table -/

/-- Condition on a declared `type` value of an `items` object: a non-empty
string (the only shape a real JSON Schema uses). -/
def wfTypeField (tv : JsonVal) : Bool :=
  match tv with
  | JsonVal.str s => !s.isEmpty
  | _ => false

/-- A well-formed `items` object: its `type` field, when present, is a
non-empty string. -/
def wfItemsVal (items : JsonVal) : Bool :=
  ((jsGet items "type").map wfTypeField).getD true

/-- A well-formed property value: its `items` field, when present, is
well-formed. -/
def wfItems (prop : JsonVal) : Bool :=
  ((jsGet prop "items").map wfItemsVal).getD true

/-- Well-formedness of a JSON-schema document for the claim: `required`, when
present, is an array or `null` (the claim speaks of "the schema's required
list"); `properties`, when truthy, is an object; every property's declared
`items.type`, when present, is a non-empty string.  This is the shape every
real JSON Schema has; outside it JavaScript's own behaviour (substring
`includes`, thrown `TypeError`s, stringified item types) leaves the fixed
table. -/
def wfJsonSchema (jsonSchema : JsonVal) : Bool :=
  (match jsGet jsonSchema "required" with
   | none => true
   | some JsonVal.null => true
   | some (JsonVal.arr _) => true
   | some _ => false) &&
  (match jsGet jsonSchema "properties" with
   | none => true
   | some (JsonVal.obj _) => true
   | some v => !jsTruthy v) &&
  ((jsonEntries jsonSchema).all fun kv => wfItems kv.2)

/-- The names in the schema's required list, per the spec's words. -/
def requiredNames (jsonSchema : JsonVal) : List String :=
  match jsGet jsonSchema "required" with
  | some (JsonVal.arr xs) =>
    xs.filterMap fun v => match v with | JsonVal.str s => some s | _ => none
  | _ => []

/-- The item type of the spec's `array` row: the declared item type,
defaulting to `any` when unspecified. -/
def specItemType (prop : JsonVal) : String :=
  match jsGet prop "items" with
  | some items =>
    match jsGet items "type" with
    | some (JsonVal.str s) => s
    | _ => "any"
  | none => "any"

/-- The spec's fixed mapping table (second definition, written from the
spec's words): `string→string`, `number→number`, `boolean→boolean`,
`array→"<item-type>[]"` with the item type defaulting to `any` when
unspecified, `object→Record<string, any>` when it declares open (truthy)
additional properties else `object`, anything else `→ any`. -/
def specTsType (prop : JsonVal) : String :=
  match jsGet prop "type" with
  | some (JsonVal.str "string") => "string"
  | some (JsonVal.str "number") => "number"
  | some (JsonVal.str "boolean") => "boolean"
  | some (JsonVal.str "array") => specItemType prop ++ "[]"
  | some (JsonVal.str "object") =>
    if jsTruthyOpt (jsGet prop "additionalProperties") then "Record<string, any>"
    else "object"
  | _ => "any"

/-- On a well-formed property the code's item type agrees with the spec's. -/
theorem jsonItemType_eq_spec (prop : JsonVal) (h : wfItems prop = true) :
    jsonItemType prop = specItemType prop := by
  rw [wfItems] at h
  unfold jsonItemType specItemType
  split
  case h_2 => rfl
  rename_i items heq1
  rw [heq1, Option.map_some', Option.getD_some, wfItemsVal] at h
  split
  rename_i s heq2
  · rw [heq2, Option.map_some', Option.getD_some] at h
    simp only [wfTypeField] at h
    rw [if_neg]
    intro hcon
    rw [hcon] at h
    exact absurd h (by decide)
  · rfl

/-- On a well-formed property the code's `switch (prop.type)` agrees with the
spec's fixed table. -/
theorem jsonTsType_eq_specTsType (prop : JsonVal) (h : wfItems prop = true) :
    jsonTsType prop = specTsType prop := by
  unfold jsonTsType specTsType
  split <;> try rfl
  rw [jsonItemType_eq_spec prop h, specItemType]

/-- The code's `required?.includes(key) || false` agrees with membership in
the spec's required-name list whenever `required` is absent, `null` or an
array (and in the embedding's domain generally). -/
theorem requiredContains_eq_mem (jsonSchema : JsonVal) (key : String) :
    requiredContains jsonSchema key = decide (key ∈ requiredNames jsonSchema) := by
  rw [requiredContains, requiredNames]
  rcases h : jsGet jsonSchema "required" with _ | v
  · simp
  rcases v with _ | b | n | s | xs | fields
  · simp
  · simp
  · simp
  · simp
  · rw [Bool.eq_iff_iff, List.any_eq_true, decide_eq_true_eq, List.mem_filterMap]
    refine exists_congr fun v => and_congr_right fun hv => ?_
    rcases v with _ | b | n | s2 | ys | fs <;> simp
  · simp

/-- The concrete example schema of claim C4. -/
def c4Schema : JsonVal :=
  JsonVal.obj
    [("properties",
        JsonVal.obj
          [("id", JsonVal.obj [("type", JsonVal.str "string")]),
           ("count", JsonVal.obj [("type", JsonVal.str "number")])]),
     ("required", JsonVal.arr [JsonVal.str "id"])]

/-- Claim C4: on every well-formed JSON schema, `generateFromJSON` maps each
entry of the property map by the spec's fixed table and marks a field
required exactly when its name appears in the schema's required list; and on
the concrete example the output declares `id: string;` (required) and
`count?: number;` (optional). -/
theorem c4_json_fixed_table :
    (∀ jsonSchema : JsonVal, wfJsonSchema jsonSchema = true →
      (generateFromJSONProps jsonSchema).map (fun p => (p.name, p.type, p.required)) =
        (jsonEntries jsonSchema).map fun kv =>
          (kv.1, specTsType kv.2, decide (kv.1 ∈ requiredNames jsonSchema))) ∧
    generateFromJSON c4Schema "Item" =
      "export interface Item \x7b\n  id: string;\n  count?: number;\n\x7d\n\n" ++
        "export interface ItemProps \x7b\n  id: string;\n  count?: number;\n\x7d\n" := by
  constructor
  · intro jsonSchema hwf
    rw [wfJsonSchema, Bool.and_assoc, Bool.and_eq_true, Bool.and_eq_true] at hwf
    obtain ⟨_, _, hitems⟩ := hwf
    rw [generateFromJSONProps, List.map_map]
    refine List.map_congr_left fun kv hkv => ?_
    have hkv2 : wfItems kv.2 = true := List.all_eq_true.mp hitems kv hkv
    simp only [Function.comp]
    exact Prod.ext rfl
      (Prod.ext (jsonTsType_eq_specTsType kv.2 hkv2) (requiredContains_eq_mem jsonSchema kv.1))
  · decide

/-- Witness for the universally quantified part of `c4_json_fixed_table`. -/
theorem c4_json_fixed_table_witness :
    wfJsonSchema c4Schema = true ∧
      (generateFromJSONProps c4Schema).map (fun p => (p.name, p.type, p.required)) =
        (jsonEntries c4Schema).map fun kv =>
          (kv.1, specTsType kv.2, decide (kv.1 ∈ requiredNames c4Schema)) :=
  ⟨by decide, c4_json_fixed_table.1 c4Schema (by decide)⟩

/-- The shape claim C8 asserts of every generated output: an interface for
`N`, a blank line, and a `...Props` interface with the textually identical
field list; the text between the two declarations is exactly the closing
brace and a blank line, so neither declaration extends the other. -/
def interfacePair (name props : String) : String :=
  "export interface " ++ name ++ " \x7b\n" ++ props ++ "\n\x7d\n\n" ++
    "export interface " ++ name ++ "Props \x7b\n" ++ props ++ "\n\x7d\n"

/-- With no imports (both generator paths pass `interfaces: []`), the
generated text is exactly an `interfacePair`. -/
theorem generateTypeScriptTypes_no_imports (name : String) (properties : List Property) :
    generateTypeScriptTypes ⟨name, properties, []⟩ = interfacePair name (propsBlock properties) := by
  apply String.ext
  simp only [generateTypeScriptTypes, interfacePair, List.isEmpty_nil, if_true,
    String.data_append, List.append_assoc, List.nil_append, List.cons_append,
    List.singleton_append]

/-- Claim C8: every output of the JSON path, and every successful output of
the GraphQL path, is an `interfacePair`: `export interface N \x7b ... \x7d`
immediately followed by `export interface NProps \x7b ... \x7d` with the same
field list and no `extends` relationship. -/
theorem c8_props_interface_duplicated (jsonSchema : JsonVal) (gqlSchema : String)
    (name : String) (out : String) :
    (∃ props, generateFromJSON jsonSchema name = interfacePair name props) ∧
      (generateFromGraphQL gqlSchema name = Except.ok out →
        ∃ props, out = interfacePair name props) := by
  constructor
  · exact ⟨propsBlock (generateFromJSONProps jsonSchema),
      by rw [generateFromJSON, generateTypeScriptTypes_no_imports]⟩
  · intro h
    rw [generateFromGraphQL] at h
    split at h
    · cases h
    · refine ⟨propsBlock (gqlScan (("type " ++ name).data)
        (splitOnChar '\n' gqlSchema.data) false), ?_⟩
      have h2 := Except.ok.inj h
      rw [← h2, generateTypeScriptTypes_no_imports]

/-- Witness for `c8_props_interface_duplicated` discharging its GraphQL
hypothesis at a concrete schema. -/
theorem c8_props_interface_duplicated_witness :
    ∃ props,
      "export interface Post \x7b\n  id?: ID;\n\x7d\n\nexport interface PostProps \x7b\n  id?: ID;\n\x7d\n"
        = interfacePair "Post" props :=
  (c8_props_interface_duplicated (JsonVal.obj []) "type Post \x7b\n  id: ID\n\x7d" "Post"
    "export interface Post \x7b\n  id?: ID;\n\x7d\n\nexport interface PostProps \x7b\n  id?: ID;\n\x7d\n").2
    (by decide)

/-! ## Component scaffolder (generate-component.js) -/

/-- The `simple` component template string from generate-component.js (braces written as hex escapes). -/
def tplSimple : String :=
  "import React from 'react';\nimport styles from './\x7b\x7bComponentName\x7d\x7d.module.css';\n\nexport interface \x7b\x7bComponentName\x7d\x7dProps \x7b\n  children?: React.ReactNode;\n  className?: string;\n  variant?: 'primary' | 'secondary';\n\x7d\n\nexport const \x7b\x7bComponentName\x7d\x7d: React.FC<\x7b\x7bComponentName\x7d\x7dProps> = (\x7b\n  children,\n  className,\n  variant = 'primary'\n\x7d) => \x7b\n  return (\n    <div className=\x7b`$\x7bstyles.\x7b\x7bcomponentName\x7d\x7d\x7d $\x7bstyles[variant]\x7d $\x7bclassName || ''\x7d`\x7d>\n      \x7bchildren\x7d\n    </div>\n  );\n\x7d;\n\nexport default \x7b\x7bComponentName\x7d\x7d;"

/-- The `simple` template cut at its placeholder tokens: outer list between occurrences of the PascalCase token, inner between occurrences of the lowercase token. -/
def ussSimple : List (List String) :=
  [["import React from 'react';\nimport styles from './"],
   [".module.css';\n\nexport interface "],
   ["Props \x7b\n  children?: React.ReactNode;\n  className?: string;\n  variant?: 'primary' | 'secondary';\n\x7d\n\nexport const "],
   [": React.FC<"],
   ["Props> = (\x7b\n  children,\n  className,\n  variant = 'primary'\n\x7d) => \x7b\n  return (\n    <div className=\x7b`$\x7bstyles.", "\x7d $\x7bstyles[variant]\x7d $\x7bclassName || ''\x7d`\x7d>\n      \x7bchildren\x7d\n    </div>\n  );\n\x7d;\n\nexport default "],
   [";"]]

/-- The `interactive` component template string from generate-component.js (braces written as hex escapes). -/
def tplInteractive : String :=
  "import React, \x7b useState, useCallback \x7d from 'react';\nimport styles from './\x7b\x7bComponentName\x7d\x7d.module.css';\n\nexport interface \x7b\x7bComponentName\x7d\x7dProps \x7b\n  initialValue?: boolean;\n  onToggle?: (value: boolean) => void;\n  disabled?: boolean;\n  className?: string;\n\x7d\n\nexport const \x7b\x7bComponentName\x7d\x7d: React.FC<\x7b\x7bComponentName\x7d\x7dProps> = (\x7b\n  initialValue = false,\n  onToggle,\n  disabled = false,\n  className\n\x7d) => \x7b\n  const [isActive, setIsActive] = useState(initialValue);\n\n  const handleToggle = useCallback(() => \x7b\n    if (disabled) return;\n\n    const newValue = !isActive;\n    setIsActive(newValue);\n    onToggle?.(newValue);\n  \x7d, [isActive, disabled, onToggle]);\n\n  return (\n    <button\n      className=\x7b`$\x7bstyles.\x7b\x7bcomponentName\x7d\x7d\x7d $\x7bisActive ? styles.active : ''\x7d $\x7bdisabled ? styles.disabled : ''\x7d $\x7bclassName || ''\x7d`\x7d\n      onClick=\x7bhandleToggle\x7d\n      disabled=\x7bdisabled\x7d\n      type=\"button\"\n    >\n      \x7bisActive ? 'Active' : 'Inactive'\x7d\n    </button>\n  );\n\x7d;\n\nexport default \x7b\x7bComponentName\x7d\x7d;"

/-- The `interactive` template cut at its placeholder tokens: outer list between occurrences of the PascalCase token, inner between occurrences of the lowercase token. -/
def ussInteractive : List (List String) :=
  [["import React, \x7b useState, useCallback \x7d from 'react';\nimport styles from './"],
   [".module.css';\n\nexport interface "],
   ["Props \x7b\n  initialValue?: boolean;\n  onToggle?: (value: boolean) => void;\n  disabled?: boolean;\n  className?: string;\n\x7d\n\nexport const "],
   [": React.FC<"],
   ["Props> = (\x7b\n  initialValue = false,\n  onToggle,\n  disabled = false,\n  className\n\x7d) => \x7b\n  const [isActive, setIsActive] = useState(initialValue);\n\n  const handleToggle = useCallback(() => \x7b\n    if (disabled) return;\n\n    const newValue = !isActive;\n    setIsActive(newValue);\n    onToggle?.(newValue);\n  \x7d, [isActive, disabled, onToggle]);\n\n  return (\n    <button\n      className=\x7b`$\x7bstyles.", "\x7d $\x7bisActive ? styles.active : ''\x7d $\x7bdisabled ? styles.disabled : ''\x7d $\x7bclassName || ''\x7d`\x7d\n      onClick=\x7bhandleToggle\x7d\n      disabled=\x7bdisabled\x7d\n      type=\"button\"\n    >\n      \x7bisActive ? 'Active' : 'Inactive'\x7d\n    </button>\n  );\n\x7d;\n\nexport default "],
   [";"]]

/-- The `data` component template string from generate-component.js (braces written as hex escapes). -/
def tplData : String :=
  "import React, \x7b useEffect, useState \x7d from 'react';\nimport styles from './\x7b\x7bComponentName\x7d\x7d.module.css';\n\nexport interface DataItem \x7b\n  id: string;\n  name: string;\n  // Add other properties based on your API response\n\x7d\n\nexport interface \x7b\x7bComponentName\x7d\x7dProps \x7b\n  url: string;\n  renderItem?: (item: DataItem) => React.ReactNode;\n  className?: string;\n\x7d\n\nexport const \x7b\x7bComponentName\x7d\x7d: React.FC<\x7b\x7bComponentName\x7d\x7dProps> = (\x7b\n  url,\n  renderItem,\n  className\n\x7d) => \x7b\n  const [data, setData] = useState<DataItem[]>([]);\n  const [loading, setLoading] = useState(true);\n  const [error, setError] = useState<string | null>(null);\n\n  useEffect(() => \x7b\n    const fetchData = async () => \x7b\n      try \x7b\n        setLoading(true);\n        setError(null);\n\n        const response = await fetch(url);\n        if (!response.ok) \x7b\n          throw new Error(`HTTP error! status: $\x7bresponse.status\x7d`);\n        \x7d\n\n        const result = await response.json();\n        setData(result);\n      \x7d catch (err) \x7b\n        setError(err instanceof Error ? err.message : 'An error occurred');\n      \x7d finally \x7b\n        setLoading(false);\n      \x7d\n    \x7d;\n\n    fetchData();\n  \x7d, [url]);\n\n  if (loading) \x7b\n    return <div className=\x7b`$\x7bstyles.\x7b\x7bcomponentName\x7d\x7d\x7d $\x7bstyles.loading\x7d $\x7bclassName || ''\x7d`\x7d>Loading...</div>;\n  \x7d\n\n  if (error) \x7b\n    return <div className=\x7b`$\x7bstyles.\x7b\x7bcomponentName\x7d\x7d\x7d $\x7bstyles.error\x7d $\x7bclassName || ''\x7d`\x7d>Error: \x7berror\x7d</div>;\n  \x7d\n\n  return (\n    <div className=\x7b`$\x7bstyles.\x7b\x7bcomponentName\x7d\x7d\x7d $\x7bclassName || ''\x7d`\x7d>\n      \x7bdata.map((item) => (\n        <div key=\x7bitem.id\x7d className=\x7bstyles.item\x7d>\n          \x7brenderItem ? renderItem(item) : <div>\x7bitem.name\x7d</div>\x7d\n        </div>\n      ))\x7d\n    </div>\n  );\n\x7d;\n\nexport default \x7b\x7bComponentName\x7d\x7d;"

/-- The `data` template cut at its placeholder tokens: outer list between occurrences of the PascalCase token, inner between occurrences of the lowercase token. -/
def ussData : List (List String) :=
  [["import React, \x7b useEffect, useState \x7d from 'react';\nimport styles from './"],
   [".module.css';\n\nexport interface DataItem \x7b\n  id: string;\n  name: string;\n  // Add other properties based on your API response\n\x7d\n\nexport interface "],
   ["Props \x7b\n  url: string;\n  renderItem?: (item: DataItem) => React.ReactNode;\n  className?: string;\n\x7d\n\nexport const "],
   [": React.FC<"],
   ["Props> = (\x7b\n  url,\n  renderItem,\n  className\n\x7d) => \x7b\n  const [data, setData] = useState<DataItem[]>([]);\n  const [loading, setLoading] = useState(true);\n  const [error, setError] = useState<string | null>(null);\n\n  useEffect(() => \x7b\n    const fetchData = async () => \x7b\n      try \x7b\n        setLoading(true);\n        setError(null);\n\n        const response = await fetch(url);\n        if (!response.ok) \x7b\n          throw new Error(`HTTP error! status: $\x7bresponse.status\x7d`);\n        \x7d\n\n        const result = await response.json();\n        setData(result);\n      \x7d catch (err) \x7b\n        setError(err instanceof Error ? err.message : 'An error occurred');\n      \x7d finally \x7b\n        setLoading(false);\n      \x7d\n    \x7d;\n\n    fetchData();\n  \x7d, [url]);\n\n  if (loading) \x7b\n    return <div className=\x7b`$\x7bstyles.", "\x7d $\x7bstyles.loading\x7d $\x7bclassName || ''\x7d`\x7d>Loading...</div>;\n  \x7d\n\n  if (error) \x7b\n    return <div className=\x7b`$\x7bstyles.", "\x7d $\x7bstyles.error\x7d $\x7bclassName || ''\x7d`\x7d>Error: \x7berror\x7d</div>;\n  \x7d\n\n  return (\n    <div className=\x7b`$\x7bstyles.", "\x7d $\x7bclassName || ''\x7d`\x7d>\n      \x7bdata.map((item) => (\n        <div key=\x7bitem.id\x7d className=\x7bstyles.item\x7d>\n          \x7brenderItem ? renderItem(item) : <div>\x7bitem.name\x7d</div>\x7d\n        </div>\n      ))\x7d\n    </div>\n  );\n\x7d;\n\nexport default "],
   [";"]]

/-- The `form` component template string from generate-component.js (braces written as hex escapes). -/
def tplForm : String :=
  "import React, \x7b useState, useCallback, FormEvent \x7d from 'react';\nimport styles from './\x7b\x7bComponentName\x7d\x7d.module.css';\n\nexport interface FormData \x7b\n  email: string;\n  password: string;\n  // Add other form fields as needed\n\x7d\n\nexport interface FormErrors \x7b\n  email?: string;\n  password?: string;\n\x7d\n\nexport interface \x7b\x7bComponentName\x7d\x7dProps \x7b\n  onSubmit: (data: FormData) => Promise<void>;\n  initialValues?: Partial<FormData>;\n  submitButtonText?: string;\n  className?: string;\n\x7d\n\nexport const \x7b\x7bComponentName\x7d\x7d: React.FC<\x7b\x7bComponentName\x7d\x7dProps> = (\x7b\n  onSubmit,\n  initialValues,\n  submitButtonText = 'Submit',\n  className\n\x7d) => \x7b\n  const [formData, setFormData] = useState<FormData>(\x7b\n    email: initialValues?.email || '',\n    password: initialValues?.password || ''\n  \x7d);\n\n  const [errors, setErrors] = useState<FormErrors>(\x7b\x7d);\n  const [isSubmitting, setIsSubmitting] = useState(false);\n\n  const validateForm = useCallback((): boolean => \x7b\n    const newErrors: FormErrors = \x7b\x7d;\n\n    if (!formData.email) \x7b\n      newErrors.email = 'Email is required';\n    \x7d else if (!/^[^\\s@]+@[^\\s@]+\\.[^\\s@]+$/.test(formData.email)) \x7b\n      newErrors.email = 'Invalid email address';\n    \x7d\n\n    if (!formData.password) \x7b\n      newErrors.password = 'Password is required';\n    \x7d else if (formData.password.length < 8) \x7b\n      newErrors.password = 'Password must be at least 8 characters';\n    \x7d\n\n    setErrors(newErrors);\n    return Object.keys(newErrors).length === 0;\n  \x7d, [formData]);\n\n  const handleSubmit = useCallback(async (e: FormEvent) => \x7b\n    e.preventDefault();\n\n    if (!validateForm()) return;\n\n    setIsSubmitting(true);\n    try \x7b\n      await onSubmit(formData);\n    \x7d catch (error) \x7b\n      console.error('Form submission error:', error);\n    \x7d finally \x7b\n      setIsSubmitting(false);\n    \x7d\n  \x7d, [formData, validateForm, onSubmit]);\n\n  const handleInputChange = useCallback((field: keyof FormData) => \x7b\n    return (e: React.ChangeEvent<HTMLInputElement>) => \x7b\n      setFormData(prev => (\x7b ...prev, [field]: e.target.value \x7d));\n      // Clear error when user starts typing\n      if (errors[field]) \x7b\n        setErrors(prev => (\x7b ...prev, [field]: undefined \x7d));\n      \x7d\n    \x7d;\n  \x7d, [errors]);\n\n  return (\n    <form onSubmit=\x7bhandleSubmit\x7d className=\x7b`$\x7bstyles.\x7b\x7bcomponentName\x7d\x7d\x7d $\x7bclassName || ''\x7d`\x7d>\n      <div className=\x7bstyles.field\x7d>\n        <label htmlFor=\"email\" className=\x7bstyles.label\x7d>\n          Email\n        </label>\n        <input\n          id=\"email\"\n          type=\"email\"\n          value=\x7bformData.email\x7d\n          onChange=\x7bhandleInputChange('email')\x7d\n          className=\x7b`$\x7bstyles.input\x7d $\x7berrors.email ? styles.error : ''\x7d`\x7d\n          disabled=\x7bisSubmitting\x7d\n        />\n        \x7berrors.email && <span className=\x7bstyles.errorMessage\x7d>\x7berrors.email\x7d</span>\x7d\n      </div>\n\n      <div className=\x7bstyles.field\x7d>\n        <label htmlFor=\"password\" className=\x7bstyles.label\x7d>\n          Password\n        </label>\n        <input\n          id=\"password\"\n          type=\"password\"\n          value=\x7bformData.password\x7d\n          onChange=\x7bhandleInputChange('password')\x7d\n          className=\x7b`$\x7bstyles.input\x7d $\x7berrors.password ? styles.error : ''\x7d`\x7d\n          disabled=\x7bisSubmitting\x7d\n        />\n        \x7berrors.password && <span className=\x7bstyles.errorMessage\x7d>\x7berrors.password\x7d</span>\x7d\n      </div>\n\n      <button\n        type=\"submit\"\n        disabled=\x7bisSubmitting\x7d\n        className=\x7bstyles.submitButton\x7d\n      >\n        \x7bisSubmitting ? 'Submitting...' : submitButtonText\x7d\n      </button>\n    </form>\n  );\n\x7d;\n\nexport default \x7b\x7bComponentName\x7d\x7d;"

/-- The `form` template cut at its placeholder tokens: outer list between occurrences of the PascalCase token, inner between occurrences of the lowercase token. -/
def ussForm : List (List String) :=
  [["import React, \x7b useState, useCallback, FormEvent \x7d from 'react';\nimport styles from './"],
   [".module.css';\n\nexport interface FormData \x7b\n  email: string;\n  password: string;\n  // Add other form fields as needed\n\x7d\n\nexport interface FormErrors \x7b\n  email?: string;\n  password?: string;\n\x7d\n\nexport interface "],
   ["Props \x7b\n  onSubmit: (data: FormData) => Promise<void>;\n  initialValues?: Partial<FormData>;\n  submitButtonText?: string;\n  className?: string;\n\x7d\n\nexport const "],
   [": React.FC<"],
   ["Props> = (\x7b\n  onSubmit,\n  initialValues,\n  submitButtonText = 'Submit',\n  className\n\x7d) => \x7b\n  const [formData, setFormData] = useState<FormData>(\x7b\n    email: initialValues?.email || '',\n    password: initialValues?.password || ''\n  \x7d);\n\n  const [errors, setErrors] = useState<FormErrors>(\x7b\x7d);\n  const [isSubmitting, setIsSubmitting] = useState(false);\n\n  const validateForm = useCallback((): boolean => \x7b\n    const newErrors: FormErrors = \x7b\x7d;\n\n    if (!formData.email) \x7b\n      newErrors.email = 'Email is required';\n    \x7d else if (!/^[^\\s@]+@[^\\s@]+\\.[^\\s@]+$/.test(formData.email)) \x7b\n      newErrors.email = 'Invalid email address';\n    \x7d\n\n    if (!formData.password) \x7b\n      newErrors.password = 'Password is required';\n    \x7d else if (formData.password.length < 8) \x7b\n      newErrors.password = 'Password must be at least 8 characters';\n    \x7d\n\n    setErrors(newErrors);\n    return Object.keys(newErrors).length === 0;\n  \x7d, [formData]);\n\n  const handleSubmit = useCallback(async (e: FormEvent) => \x7b\n    e.preventDefault();\n\n    if (!validateForm()) return;\n\n    setIsSubmitting(true);\n    try \x7b\n      await onSubmit(formData);\n    \x7d catch (error) \x7b\n      console.error('Form submission error:', error);\n    \x7d finally \x7b\n      setIsSubmitting(false);\n    \x7d\n  \x7d, [formData, validateForm, onSubmit]);\n\n  const handleInputChange = useCallback((field: keyof FormData) => \x7b\n    return (e: React.ChangeEvent<HTMLInputElement>) => \x7b\n      setFormData(prev => (\x7b ...prev, [field]: e.target.value \x7d));\n      // Clear error when user starts typing\n      if (errors[field]) \x7b\n        setErrors(prev => (\x7b ...prev, [field]: undefined \x7d));\n      \x7d\n    \x7d;\n  \x7d, [errors]);\n\n  return (\n    <form onSubmit=\x7bhandleSubmit\x7d className=\x7b`$\x7bstyles.", "\x7d $\x7bclassName || ''\x7d`\x7d>\n      <div className=\x7bstyles.field\x7d>\n        <label htmlFor=\"email\" className=\x7bstyles.label\x7d>\n          Email\n        </label>\n        <input\n          id=\"email\"\n          type=\"email\"\n          value=\x7bformData.email\x7d\n          onChange=\x7bhandleInputChange('email')\x7d\n          className=\x7b`$\x7bstyles.input\x7d $\x7berrors.email ? styles.error : ''\x7d`\x7d\n          disabled=\x7bisSubmitting\x7d\n        />\n        \x7berrors.email && <span className=\x7bstyles.errorMessage\x7d>\x7berrors.email\x7d</span>\x7d\n      </div>\n\n      <div className=\x7bstyles.field\x7d>\n        <label htmlFor=\"password\" className=\x7bstyles.label\x7d>\n          Password\n        </label>\n        <input\n          id=\"password\"\n          type=\"password\"\n          value=\x7bformData.password\x7d\n          onChange=\x7bhandleInputChange('password')\x7d\n          className=\x7b`$\x7bstyles.input\x7d $\x7berrors.password ? styles.error : ''\x7d`\x7d\n          disabled=\x7bisSubmitting\x7d\n        />\n        \x7berrors.password && <span className=\x7bstyles.errorMessage\x7d>\x7berrors.password\x7d</span>\x7d\n      </div>\n\n      <button\n        type=\"submit\"\n        disabled=\x7bisSubmitting\x7d\n        className=\x7bstyles.submitButton\x7d\n      >\n        \x7bisSubmitting ? 'Submitting...' : submitButtonText\x7d\n      </button>\n    </form>\n  );\n\x7d;\n\nexport default "],
   [";"]]

/-- The `simple` CSS template string from generate-component.js. -/
def cssTplSimple : String :=
  ".\x7b\x7bcomponentName\x7d\x7d \x7b\n  display: inline-block;\n  padding: 8px 16px;\n  border: 1px solid #ccc;\n  border-radius: 4px;\n  font-size: 14px;\n  cursor: pointer;\n  transition: all 0.2s;\n\x7d\n\n.\x7b\x7bcomponentName\x7d\x7d:hover \x7b\n  background-color: #f5f5f5;\n\x7d\n\n.primary \x7b\n  background-color: #007bff;\n  color: white;\n  border-color: #007bff;\n\x7d\n\n.primary:hover \x7b\n  background-color: #0056b3;\n\x7d\n\n.secondary \x7b\n  background-color: #6c757d;\n  color: white;\n  border-color: #6c757d;\n\x7d\n\n.secondary:hover \x7b\n  background-color: #545b62;\n\x7d"

/-- The `interactive` CSS template string from generate-component.js. -/
def cssTplInteractive : String :=
  ".\x7b\x7bcomponentName\x7d\x7d \x7b\n  padding: 8px 16px;\n  border: 1px solid #ccc;\n  border-radius: 4px;\n  background-color: white;\n  cursor: pointer;\n  transition: all 0.2s;\n  font-size: 14px;\n\x7d\n\n.\x7b\x7bcomponentName\x7d\x7d.active \x7b\n  background-color: #007bff;\n  color: white;\n  border-color: #007bff;\n\x7d\n\n.\x7b\x7bcomponentName\x7d\x7d.disabled \x7b\n  opacity: 0.6;\n  cursor: not-allowed;\n\x7d\n\n.\x7b\x7bcomponentName\x7d\x7d:not(.disabled):hover \x7b\n  background-color: #f5f5f5;\n\x7d\n\n.\x7b\x7bcomponentName\x7d\x7d.active:hover \x7b\n  background-color: #0056b3;\n\x7d"

/-- The `data` CSS template string from generate-component.js. -/
def cssTplData : String :=
  ".\x7b\x7bcomponentName\x7d\x7d \x7b\n  padding: 16px;\n\x7d\n\n.\x7b\x7bcomponentName\x7d\x7d.loading \x7b\n  display: flex;\n  justify-content: center;\n  align-items: center;\n  height: 200px;\n  font-size: 16px;\n  color: #666;\n\x7d\n\n.\x7b\x7bcomponentName\x7d\x7d.error \x7b\n  color: #dc3545;\n  text-align: center;\n  padding: 16px;\n\x7d\n\n.item \x7b\n  padding: 8px 0;\n  border-bottom: 1px solid #eee;\n\x7d\n\n.item:last-child \x7b\n  border-bottom: none;\n\x7d"

/-- The `form` CSS template string from generate-component.js. -/
def cssTplForm : String :=
  ".\x7b\x7bcomponentName\x7d\x7d \x7b\n  max-width: 400px;\n  padding: 24px;\n  border: 1px solid #ddd;\n  border-radius: 8px;\n  background-color: white;\n\x7d\n\n.field \x7b\n  margin-bottom: 16px;\n\x7d\n\n.label \x7b\n  display: block;\n  margin-bottom: 4px;\n  font-weight: 500;\n  color: #333;\n\x7d\n\n.input \x7b\n  width: 100%;\n  padding: 8px 12px;\n  border: 1px solid #ccc;\n  border-radius: 4px;\n  font-size: 14px;\n  transition: border-color 0.2s;\n\x7d\n\n.input:focus \x7b\n  outline: none;\n  border-color: #007bff;\n  box-shadow: 0 0 0 2px rgba(0, 123, 255, 0.25);\n\x7d\n\n.input.error \x7b\n  border-color: #dc3545;\n\x7d\n\n.errorMessage \x7b\n  display: block;\n  margin-top: 4px;\n  color: #dc3545;\n  font-size: 12px;\n\x7d\n\n.submitButton \x7b\n  width: 100%;\n  padding: 10px;\n  background-color: #007bff;\n  color: white;\n  border: none;\n  border-radius: 4px;\n  font-size: 16px;\n  cursor: pointer;\n  transition: background-color 0.2s;\n\x7d\n\n.submitButton:hover:not(:disabled) \x7b\n  background-color: #0056b3;\n\x7d\n\n.submitButton:disabled \x7b\n  background-color: #ccc;\n  cursor: not-allowed;\n\x7d"
/-- JS `String.prototype.replace` with a global regex whose pattern is a
literal string: scan left to right, replacing each non-overlapping occurrence
of `pat` by `repl`.  (Component names here contain no replacement-pattern
characters such as `$`, so the replacement string is inserted literally.) -/
def replaceAllL (pat repl : List Char) : List Char → List Char
  | [] => []
  | c :: cs =>
    if pat ≠ [] ∧ pat.isPrefixOf (c :: cs) then
      repl ++ replaceAllL pat repl (List.drop (pat.length - 1) cs)
    else
      c :: replaceAllL pat repl cs
termination_by l => l.length
decreasing_by
  all_goals simp only [List.length_cons, List.length_drop]
  all_goals omega

/-- The PascalCase placeholder token. -/
def upperToken : String := "\x7b\x7bComponentName\x7d\x7d"

/-- The lowercase placeholder token. -/
def lowerToken : String := "\x7b\x7bcomponentName\x7d\x7d"

/-- JS `toLowerCase` (ASCII; component names are ASCII identifiers). -/
def jsToLower (l : List Char) : List Char := l.map Char.toLower

/-- The component-source rendering of `createComponent`:
`template.replace(/\x7b\x7bComponentName\x7d\x7d/g, componentName)
         .replace(/\x7b\x7bcomponentName\x7d\x7d/g, componentName.toLowerCase())`. -/
def renderComponentTemplate (t : String) (componentName : String) : String :=
  String.mk
    (replaceAllL lowerToken.data (jsToLower componentName.data)
      (replaceAllL upperToken.data componentName.data t.data))

/-- The CSS rendering of `createComponent`:
`cssTemplate.replace(/\x7b\x7bcomponentName\x7d\x7d/g, componentName.toLowerCase())`. -/
def renderCssTemplate (t : String) (componentName : String) : String :=
  String.mk (replaceAllL lowerToken.data (jsToLower componentName.data) t.data)

/-- `templates[type] || templates.simple`: the four own keys, defaulting to
`simple` for any other type string. -/
def templateFor (ty : String) : String :=
  if ty = "simple" then tplSimple
  else if ty = "interactive" then tplInteractive
  else if ty = "data" then tplData
  else if ty = "form" then tplForm
  else tplSimple

/-- `cssTemplates[type] || cssTemplates.simple`. -/
def cssTemplateFor (ty : String) : String :=
  if ty = "simple" then cssTplSimple
  else if ty = "interactive" then cssTplInteractive
  else if ty = "data" then cssTplData
  else if ty = "form" then cssTplForm
  else cssTplSimple

/-- `GenerationOptions`: the recognized options record.  A `none` field
models an absent property, picked up by the destructuring defaults
`\x7b type = 'simple', styled = true, typed = true \x7d`. -/
structure GenerationOptions where
  type : Option String := none
  styled : Option Bool := none
  typed : Option Bool := none

/-- The barrel file `index.ts` content, depending on `typed`. -/
def indexContent (typed : Bool) (componentName : String) : String :=
  if typed then
    "export \x7b " ++ componentName ++ ", type " ++ componentName ++
      "Props \x7d from './" ++ componentName ++ "';\n" ++
      "export \x7b default \x7d from './" ++ componentName ++ "';"
  else
    "export \x7b " ++ componentName ++ " \x7d from './" ++ componentName ++ "';\n" ++
      "export \x7b default \x7d from './" ++ componentName ++ "';"

/-- The test stub `<ComponentName>.test.tsx` content. -/
def testContent (componentName : String) : String :=
  "import React from 'react';\n" ++
    "import \x7b render, screen \x7d from '@testing-library/react';\n" ++
    "import \x7b " ++ componentName ++ " \x7d from './" ++ componentName ++ "';\n\n" ++
    "describe('" ++ componentName ++ "', () => \x7b\n" ++
    "  it('renders without crashing', () => \x7b\n" ++
    "    render(<" ++ componentName ++ " />);\n" ++
    "  \x7d);\n\n" ++
    "  it('applies custom className', () => \x7b\n" ++
    "    const \x7b container \x7d = render(<" ++ componentName ++
    " className=\"custom-class\" />);\n" ++
    "    expect(container.firstChild).toHaveClass('custom-class');\n" ++
    "  \x7d);\n" ++
    "\x7d);"

/-- `createComponent(componentName, options)` as the ordered list of
`(file name, content)` writes it performs inside
`components/<componentName>/`: the component source, the CSS module when
styled, the barrel file, the test stub. -/
def createComponent (componentName : String) (options : GenerationOptions) :
    List (String × String) :=
  let ty := options.type.getD "simple"
  let styled := options.styled.getD true
  let typed := options.typed.getD true
  let componentContent := renderComponentTemplate (templateFor ty) componentName
  [(componentName ++ ".tsx", componentContent)]
    ++ (if styled then
          [(componentName ++ ".module.css",
            renderCssTemplate (cssTemplateFor ty) componentName)]
        else [])
    ++ [("index.ts", indexContent typed componentName),
        (componentName ++ ".test.tsx", testContent componentName)]

/-- Claim C6: for every non-empty component name, `createComponent` writes
exactly the files `<N>.tsx`, `index.ts`, `<N>.test.tsx`, plus
`<N>.module.css` exactly when `options.styled` is not `false` (the
destructuring default makes an absent `styled` behave as `true`), and no
other file. -/
theorem c6_created_file_set (componentName : String) (options : GenerationOptions)
    (_h : componentName ≠ "") :
    (createComponent componentName options).map Prod.fst =
      [componentName ++ ".tsx"]
        ++ (if options.styled.getD true then [componentName ++ ".module.css"] else [])
        ++ ["index.ts", componentName ++ ".test.tsx"] := by
  rw [createComponent]
  rcases options.styled.getD true <;> simp

/-- Witness for `c6_created_file_set` at a concrete component name and the
default options. -/
theorem c6_created_file_set_witness :
    "Button" ≠ "" ∧
      (createComponent "Button" (GenerationOptions.mk none none none)).map Prod.fst =
        ["Button" ++ ".tsx"]
          ++ (if (GenerationOptions.mk none none none).styled.getD true then
                ["Button" ++ ".module.css"] else [])
          ++ ["index.ts", "Button" ++ ".test.tsx"] :=
  ⟨by decide, c6_created_file_set "Button" (GenerationOptions.mk none none none) (by decide)⟩

/-! ## Claim C7: placeholder substitution machinery -/

def SplitsClean (pat a : List Char) : Prop :=
  ∀ s : List Char, s <:+ a → s ≠ [] → s.length < pat.length → ¬ s <+: pat

theorem splitsClean_of_suffix {pat a a' : List Char} (h : a' <:+ a)
    (hcl : SplitsClean pat a) : SplitsClean pat a' :=
  fun s hs => hcl s (hs.trans h)

theorem hasSub_iff_parts (pat : List Char) :
    ∀ l, hasSub pat l = true ↔ ∃ u v, l = u ++ pat ++ v
  | [] => by
    rw [hasSub]
    constructor
    · intro h
      exact ⟨[], [], by simp [List.isEmpty_iff.mp h]⟩
    · rintro ⟨u, v, huv⟩
      have h1 := List.append_eq_nil.mp huv.symm
      have h2 := List.append_eq_nil.mp h1.1
      simp [h2.2]
  | c :: rest => by
    rw [hasSub, Bool.or_eq_true]
    constructor
    · rintro (h1 | h2)
      · rcases List.isPrefixOf_iff_prefix.mp h1 with ⟨t, ht⟩
        exact ⟨[], t, by simp [← ht]⟩
      · rcases (hasSub_iff_parts pat rest).mp h2 with ⟨u, v, huv⟩
        exact ⟨c :: u, v, by simp [huv]⟩
    · rintro ⟨u, v, huv⟩
      rcases u with _ | ⟨u0, u'⟩
      · left
        refine List.isPrefixOf_iff_prefix.mpr ⟨v, ?_⟩
        simpa using huv.symm
      · right
        rw [List.cons_append, List.cons_append] at huv
        injection huv with hc hrest
        exact (hasSub_iff_parts pat rest).mpr ⟨u', v, hrest⟩

theorem hasSub_append_split (pat b rest : List Char)
    (h : hasSub pat (b ++ rest) = true) :
    (∃ s, s <:+ b ∧ s ≠ [] ∧ pat.isPrefixOf (s ++ rest) = true) ∨
      hasSub pat rest = true := by
  induction b with
  | nil => right; simpa using h
  | cons c b' ih =>
    rw [List.cons_append, hasSub, Bool.or_eq_true] at h
    rcases h with h1 | h2
    · left
      exact ⟨c :: b', List.suffix_refl _, List.cons_ne_nil c b', by
        rw [List.cons_append]; exact h1⟩
    · rcases ih h2 with ⟨s, hs, hne, hp⟩ | h3
      · left
        exact ⟨s, hs.trans (List.suffix_cons c b'), hne, hp⟩
      · right; exact h3

theorem hasSub_of_prefix_suffix {pat s b : List Char} (hs : s <:+ b)
    (hp : pat <+: s) : hasSub pat b = true := by
  rcases hs with ⟨u, hu⟩
  rcases hp with ⟨v, hv⟩
  exact (hasSub_iff_parts pat b).mpr ⟨u, v, by rw [← hu, ← hv, List.append_assoc]⟩

def BlockOk (pat b : List Char) : Prop :=
  hasSub pat b = false ∧ SplitsClean pat b

theorem hasSub_flatten_false (pat : List Char) (hpat : pat ≠ []) :
    ∀ blocks : List (List Char), (∀ b ∈ blocks, BlockOk pat b) →
      hasSub pat blocks.flatten = false
  | [], _ => by
    rw [List.flatten_nil, hasSub]
    rcases pat with _ | ⟨p, ps⟩
    · exact absurd rfl hpat
    · rfl
  | b :: bs, hb => by
    rw [List.flatten_cons]
    by_contra hcon
    rw [Bool.not_eq_false] at hcon
    rcases hasSub_append_split pat b bs.flatten hcon with ⟨s, hs, hne, hp⟩ | h2
    · obtain ⟨hnosub, hclean⟩ := hb b (List.mem_cons_self b bs)
      rcases List.isPrefixOf_iff_prefix.mp hp with ⟨t, ht⟩
      by_cases hlen : s.length < pat.length
      · refine hclean s hs hne hlen ?_
        have h1 : s = pat.take s.length := by
          calc s = (s ++ bs.flatten).take s.length := (List.take_left s _).symm
            _ = (pat ++ t).take s.length := by rw [ht]
            _ = pat.take s.length := List.take_append_of_le_length (Nat.le_of_lt hlen)
        rw [h1]
        exact List.take_prefix _ _
      · have hps : pat <+: s := by
          have h1 : pat = s.take pat.length := by
            calc pat = (pat ++ t).take pat.length := (List.take_left pat t).symm
              _ = (s ++ bs.flatten).take pat.length := by rw [ht]
              _ = s.take pat.length :=
                List.take_append_of_le_length (Nat.le_of_not_lt hlen)
          rw [h1]
          exact List.take_prefix _ _
        rw [hasSub_of_prefix_suffix hs hps] at hnosub
        cases hnosub
    · have h3 := hasSub_flatten_false pat hpat bs
        (fun x hx => hb x (List.mem_cons_of_mem b hx))
      rw [h3] at h2
      cases h2

theorem replaceAll_no_match (pat repl : List Char) :
    ∀ l, hasSub pat l = false → replaceAllL pat repl l = l
  | [], _ => by rw [replaceAllL]
  | c :: cs, h => by
    rw [hasSub, Bool.or_eq_false_iff] at h
    rw [replaceAllL, if_neg (fun hand => by rw [hand.2] at h; exact absurd h.1 (by simp))]
    rw [replaceAll_no_match pat repl cs h.2]

theorem replaceAll_head (pat repl rest : List Char) (hpat : pat ≠ []) :
    replaceAllL pat repl (pat ++ rest) = repl ++ replaceAllL pat repl rest := by
  rcases hp : pat with _ | ⟨p, ps⟩
  · exact absurd hp hpat
  rw [List.cons_append, replaceAllL, if_pos]
  · congr 2
    rw [List.length_cons]
    have : ps.length + 1 - 1 = ps.length := rfl
    rw [this, List.drop_left]
  · refine ⟨by simp, List.isPrefixOf_iff_prefix.mpr ⟨rest, ?_⟩⟩
    rw [List.cons_append]

theorem replaceAll_append (pat repl : List Char) (hpat : pat ≠ []) :
    ∀ (a b : List Char), SplitsClean pat a →
      replaceAllL pat repl (a ++ b) =
        replaceAllL pat repl a ++ replaceAllL pat repl b
  | [], b, _ => by
    rw [List.nil_append]
    have h0 : replaceAllL pat repl [] = [] := by rw [replaceAllL]
    rw [h0, List.nil_append]
  | c :: a', b, hcl => by
    by_cases hm : pat.isPrefixOf (c :: a') = true
    · rcases List.isPrefixOf_iff_prefix.mp hm with ⟨t, ht⟩
      have hm2 : pat.isPrefixOf (c :: (a' ++ b)) = true := by
        refine List.isPrefixOf_iff_prefix.mpr ⟨t ++ b, ?_⟩
        rw [← List.append_assoc, ht, List.cons_append]
      have hlen : pat.length - 1 ≤ a'.length := by
        have := congrArg List.length ht
        rw [List.length_append, List.length_cons] at this
        omega
      rw [List.cons_append, replaceAllL, if_pos ⟨hpat, hm2⟩,
        replaceAllL, if_pos ⟨hpat, hm⟩]
      rw [List.drop_append_of_le_length hlen]
      rw [replaceAll_append pat repl hpat (a'.drop (pat.length - 1)) b
        (splitsClean_of_suffix ((List.drop_suffix _ _).trans (List.suffix_cons c a')) hcl)]
      rw [List.append_assoc]
    · have hm2 : pat.isPrefixOf (c :: (a' ++ b)) = false := by
        by_contra hcon
        rw [Bool.not_eq_false] at hcon
        rcases List.isPrefixOf_iff_prefix.mp hcon with ⟨t, ht⟩
        by_cases hlen : (c :: a').length < pat.length
        · refine hcl (c :: a') (List.suffix_refl _) (List.cons_ne_nil c a') hlen ?_
          have h1 : c :: a' = pat.take (c :: a').length := by
            calc c :: a' = ((c :: a') ++ b).take (c :: a').length :=
                (List.take_left _ _).symm
              _ = (pat ++ t).take (c :: a').length := by rw [List.cons_append, ← ht]
              _ = pat.take (c :: a').length :=
                List.take_append_of_le_length (Nat.le_of_lt hlen)
          rw [h1]
          exact List.take_prefix _ _
        · have hps : pat <+: c :: a' := by
            have h1 : pat = (c :: a').take pat.length := by
              calc pat = (pat ++ t).take pat.length := (List.take_left _ _).symm
                _ = ((c :: a') ++ b).take pat.length := by rw [List.cons_append, ht]
                _ = (c :: a').take pat.length :=
                  List.take_append_of_le_length (Nat.le_of_not_lt hlen)
            rw [h1]
            exact List.take_prefix _ _
          exact hm (List.isPrefixOf_iff_prefix.mpr hps)
      rw [List.cons_append, replaceAllL, if_neg (fun hand => by
          rw [hand.2] at hm2; exact absurd hm2 (by simp)),
        replaceAllL, if_neg (fun hand => by
          rw [hand.2] at hm; exact absurd hm (by simp))]
      rw [List.cons_append]
      rw [replaceAll_append pat repl hpat a' b
        (splitsClean_of_suffix (List.suffix_cons c a') hcl)]
termination_by a _ _ => a.length
decreasing_by
  all_goals simp only [List.length_cons, List.length_drop]
  all_goals omega

/-- The pieces joined with a separator: `interL sep [a, b, c] = a ++ sep ++ b ++ sep ++ c`. -/
def interL {α : Type} (sep : List α) : List (List α) → List α
  | [] => []
  | [q] => q
  | q :: r :: rest => q ++ (sep ++ interL sep (r :: rest))

/-- Replacing the separator pattern in pieces that are match-free and
split-clean replaces exactly the separators. -/
theorem replaceAll_interL (pat repl : List Char) (hpat : pat ≠ []) :
    ∀ qs : List (List Char),
      (∀ q ∈ qs, hasSub pat q = false ∧ SplitsClean pat q) →
      replaceAllL pat repl (interL pat qs) = interL repl qs
  | [], _ => by simp only [interL]; rw [replaceAllL]
  | [q], h => by
    simp only [interL]
    exact replaceAll_no_match pat repl q (h q (List.mem_singleton.mpr rfl)).1
  | q :: r :: rest, h => by
    simp only [interL]
    rw [replaceAll_append pat repl hpat q _ (h q (List.mem_cons_self q _)).2]
    rw [replaceAll_no_match pat repl q (h q (List.mem_cons_self q _)).1]
    rw [replaceAll_head pat repl _ hpat]
    rw [replaceAll_interL pat repl hpat (r :: rest)
      (fun x hx => h x (List.mem_cons_of_mem q hx))]

/-- Replacing a pattern distributes over an interleave whose separator and
pieces are split-clean and whose separator is match-free. -/
theorem replaceAll_interL2 (pat repl X : List Char) (hpat : pat ≠ [])
    (hXn : hasSub pat X = false) (hXc : SplitsClean pat X) :
    ∀ qs : List (List Char), (∀ q ∈ qs, SplitsClean pat q) →
      replaceAllL pat repl (interL X qs) =
        interL X (qs.map (replaceAllL pat repl))
  | [], _ => by simp only [interL, List.map_nil]; rw [replaceAllL]
  | [q], _ => by simp only [interL, List.map_cons, List.map_nil]
  | q :: r :: rest, h => by
    simp only [interL, List.map_cons]
    rw [replaceAll_append pat repl hpat q _ (h q (List.mem_cons_self q _))]
    rw [replaceAll_append pat repl hpat X _ hXc]
    rw [replaceAll_no_match pat repl X hXn]
    rw [replaceAll_interL2 pat repl X hpat hXn hXc (r :: rest)
      (fun x hx => h x (List.mem_cons_of_mem q hx))]
    simp only [List.map_cons]

/-- The pieces of one group as a block list, separator blocks interleaved. -/
def sepBlocks (sep : List Char) : List (List Char) → List (List Char)
  | [] => []
  | [u] => [u]
  | u :: r :: rest => u :: sep :: sepBlocks sep (r :: rest)

theorem sepBlocks_flatten (sep : List Char) :
    ∀ us, (sepBlocks sep us).flatten = interL sep us
  | [] => by simp [sepBlocks, interL]
  | [u] => by simp [sepBlocks, interL]
  | u :: r :: rest => by
    simp only [sepBlocks, interL, List.flatten_cons]
    rw [sepBlocks_flatten sep (r :: rest)]

theorem mem_sepBlocks {sep b : List Char} :
    ∀ {us : List (List Char)}, b ∈ sepBlocks sep us → b = sep ∨ b ∈ us
  | [], h => by simp [sepBlocks] at h
  | [u], h => by
    simp only [sepBlocks, List.mem_singleton] at h
    exact Or.inr (by simp [h])
  | u :: r :: rest, h => by
    simp only [sepBlocks, List.mem_cons] at h
    rcases h with h1 | h2 | h3
    · exact Or.inr (by simp [h1])
    · exact Or.inl h2
    · rcases mem_sepBlocks h3 with h4 | h5
      · exact Or.inl h4
      · exact Or.inr (List.mem_cons_of_mem u h5)

/-- The full block decomposition of a doubly rendered template: the inner
pieces of each group joined by the lowercase replacement, groups joined by
the PascalCase replacement. -/
def renderBlocks (X lowX : List Char) : List (List (List Char)) → List (List Char)
  | [] => []
  | [us] => sepBlocks lowX us
  | us :: r :: rest => sepBlocks lowX us ++ X :: renderBlocks X lowX (r :: rest)

theorem renderBlocks_flatten (X lowX : List Char) :
    ∀ uss, (renderBlocks X lowX uss).flatten = interL X (uss.map (interL lowX))
  | [] => by simp [renderBlocks, interL]
  | [us] => by
    simp only [renderBlocks, List.map_cons, List.map_nil, interL]
    exact sepBlocks_flatten lowX us
  | us :: r :: rest => by
    simp only [renderBlocks, List.map_cons, interL, List.flatten_append,
      List.flatten_cons]
    rw [sepBlocks_flatten lowX us, renderBlocks_flatten X lowX (r :: rest)]
    simp only [List.map_cons]

theorem mem_renderBlocks {X lowX b : List Char} :
    ∀ {uss : List (List (List Char))}, b ∈ renderBlocks X lowX uss →
      b = X ∨ b = lowX ∨ ∃ us ∈ uss, b ∈ us
  | [], h => by simp [renderBlocks] at h
  | [us], h => by
    have h0 : b ∈ sepBlocks lowX us := by simpa [renderBlocks] using h
    rcases mem_sepBlocks h0 with h1 | h2
    · exact Or.inr (Or.inl h1)
    · exact Or.inr (Or.inr ⟨us, List.mem_singleton.mpr rfl, h2⟩)
  | us :: r :: rest, h => by
    simp only [renderBlocks, List.mem_append, List.mem_cons] at h
    rcases h with h1 | h2 | h3
    · rcases mem_sepBlocks h1 with h4 | h5
      · exact Or.inr (Or.inl h4)
      · exact Or.inr (Or.inr ⟨us, List.mem_cons_self us _, h5⟩)
    · exact Or.inl h2
    · rcases mem_renderBlocks h3 with h4 | h5 | ⟨us2, hus2, h6⟩
      · exact Or.inl h4
      · exact Or.inr (Or.inl h5)
      · exact Or.inr (Or.inr ⟨us2, List.mem_cons_of_mem us hus2, h6⟩)

/-- With at least two groups, the PascalCase replacement is a visible
substring of the rendered result. -/
theorem hasSub_renderBlocks_self (X lowX : List Char)
    (us r : List (List Char)) (rest : List (List (List Char))) :
    hasSub X (renderBlocks X lowX (us :: r :: rest)).flatten = true := by
  simp only [renderBlocks, List.flatten_append, List.flatten_cons]
  exact (hasSub_iff_parts X _).mpr
    ⟨(sepBlocks lowX us).flatten, (renderBlocks X lowX (r :: rest)).flatten,
      by rw [List.append_assoc]⟩

/-- A character of an ordinary component-name identifier: a letter, a digit
or an underscore. -/
def isIdentChar (c : Char) : Bool := c.isAlpha || c.isDigit || c = '_'

/-- A non-empty identifier, the domain of component names. -/
def isIdentifier (s : String) : Bool := !s.data.isEmpty && s.data.all isIdentChar

theorem identChar_ne_lbrace {c : Char} (h : isIdentChar c = true) : c ≠ lbrace := by
  intro hc
  rw [hc] at h
  exact absurd h (by decide)

theorem toLower_ne_lbrace {c : Char} (h : isIdentChar c = true) :
    c.toLower ≠ lbrace := by
  rw [Char.toLower]
  split
  · rename_i hcond
    obtain ⟨h1, h2⟩ := hcond
    have key : ∀ m : Nat, 65 ≤ m → m ≤ 90 → Char.ofNat (m + 32) ≠ lbrace := by
      intro m hm1 hm2
      interval_cases m <;> decide
    exact key c.toNat h1 h2
  · exact identChar_ne_lbrace h

theorem lbrace_not_mem_ident {s : String} (h : isIdentifier s = true) :
    lbrace ∉ s.data := by
  rw [isIdentifier, Bool.and_eq_true] at h
  intro hm
  have := List.all_eq_true.mp h.2 lbrace hm
  exact absurd this (by decide)

theorem lbrace_not_mem_lower {s : String} (h : isIdentifier s = true) :
    lbrace ∉ jsToLower s.data := by
  rw [isIdentifier, Bool.and_eq_true] at h
  intro hm
  rcases List.mem_map.mp hm with ⟨c, hc, hlow⟩
  exact toLower_ne_lbrace (List.all_eq_true.mp h.2 c hc) hlow

theorem hasSub_false_of_not_mem {pat : List Char} {c : Char}
    (hp : pat.head? = some c) : ∀ {l : List Char}, c ∉ l → hasSub pat l = false := by
  intro l
  induction l with
  | nil =>
    intro _
    rcases pat with _ | ⟨p, ps⟩
    · cases hp
    · rw [hasSub]; rfl
  | cons d rest ih =>
    intro hmem
    rw [hasSub, Bool.or_eq_false_iff]
    refine ⟨?_, ih fun hm => hmem (List.mem_cons_of_mem d hm)⟩
    rw [Bool.eq_false_iff]
    intro hT
    rcases List.isPrefixOf_iff_prefix.mp hT with ⟨tl, htl⟩
    rcases pat with _ | ⟨p, ps⟩
    · cases hp
    have hpc : p = c := by injection hp
    rw [List.cons_append] at htl
    have hpd : p = d := by injection htl
    exact hmem (List.mem_cons.mpr (Or.inl (hpc.symm.trans hpd)))

theorem splitsClean_of_not_mem {pat : List Char} {c : Char}
    (hp : pat.head? = some c) {l : List Char} (hmem : c ∉ l) :
    SplitsClean pat l := by
  intro s hs hne hlen hpre
  rcases s with _ | ⟨d, s'⟩
  · exact hne rfl
  rcases hpre with ⟨t, ht⟩
  rcases pat with _ | ⟨p, ps⟩
  · cases hp
  have hpc : p = c := by injection hp
  rw [List.cons_append] at ht
  have hpd : d = p := by injection ht
  refine hmem (hs.subset ?_)
  exact List.mem_cons.mpr (Or.inl (hpd ▸ hpc).symm)

/-- Decidable certificate for `SplitsClean`: no nonempty proper prefix of
`pat` is a suffix of `a`. -/
def cleanTailB (pat a : List Char) : Bool :=
  (List.range pat.length).all fun k => k = 0 || !((pat.take k).isSuffixOf a)

theorem splitsClean_of_cleanTailB {pat a : List Char}
    (h : cleanTailB pat a = true) : SplitsClean pat a := by
  intro s hs hne hlen hpre
  rw [cleanTailB, List.all_eq_true] at h
  have hk := h s.length (List.mem_range.mpr hlen)
  rw [Bool.or_eq_true] at hk
  rcases hk with hk | hk
  · exact hne (List.length_eq_zero.mp (by simpa using hk))
  · have h1 : s = pat.take s.length := List.prefix_iff_eq_take.mp hpre
    have h2 : (pat.take s.length).isSuffixOf a = true :=
      List.isSuffixOf_iff_suffix.mpr (h1 ▸ hs)
    rw [h2] at hk
    exact absurd hk (by decide)

/-- Decidable certificate for `BlockOk`. -/
def pieceOkB (pat u : List Char) : Bool := !hasSub pat u && cleanTailB pat u

theorem blockOk_of_pieceOkB {pat u : List Char} (h : pieceOkB pat u = true) :
    BlockOk pat u := by
  rw [pieceOkB, Bool.and_eq_true] at h
  exact ⟨by
    have := h.1
    rw [Bool.not_eq_true'] at this
    exact this, splitsClean_of_cleanTailB h.2⟩

/-- The full decidable certificate of one component template: the template is
the double interleave of its concrete pieces around the two placeholder
tokens, there are at least two outer groups, and every piece and every inner
interleave is match-free and split-clean for the tokens it will meet. -/
def templateCert (t : String) (uss : List (List String)) : Bool :=
  let ussL := uss.map fun us => us.map String.data
  let t1 := upperToken.data
  let t2 := lowerToken.data
  (t.data == interL t1 (ussL.map (interL t2))) &&
  decide (2 ≤ ussL.length) &&
  (ussL.all fun us =>
    (pieceOkB t1 (interL t2 us) && cleanTailB t2 (interL t2 us)) &&
    us.all fun u => pieceOkB t1 u && pieceOkB t2 u)

/-- Master lemma: rendering a certified template with an identifier
component name leaves no placeholder token and contains the name. -/
theorem render_clean (t : String) (uss : List (List String))
    (hcert : templateCert t uss = true) (X : String) (hX : isIdentifier X = true) :
    hasSub upperToken.data (renderComponentTemplate t X).data = false ∧
    hasSub lowerToken.data (renderComponentTemplate t X).data = false ∧
    hasSub X.data (renderComponentTemplate t X).data = true := by
  rw [templateCert, Bool.and_assoc, Bool.and_eq_true, Bool.and_eq_true] at hcert
  obtain ⟨heq, hlen2, hall⟩ := hcert
  set ussL := uss.map fun us => us.map String.data with hussL
  set t1 := upperToken.data with ht1
  set t2 := lowerToken.data with ht2
  have ht1ne : t1 ≠ [] := by rw [ht1]; decide
  have ht2ne : t2 ≠ [] := by rw [ht2]; decide
  have ht1h : t1.head? = some lbrace := by rw [ht1]; decide
  have ht2h : t2.head? = some lbrace := by rw [ht2]; decide
  have heq2 : t.data = interL t1 (ussL.map (interL t2)) := by
    exact beq_iff_eq.mp heq
  rw [List.all_eq_true] at hall
  have hX1 : hasSub t2 X.data = false :=
    hasSub_false_of_not_mem ht2h (lbrace_not_mem_ident hX)
  have hX2 : SplitsClean t2 X.data :=
    splitsClean_of_not_mem ht2h (lbrace_not_mem_ident hX)
  -- step 1: the first replace
  have step1 : replaceAllL t1 X.data t.data = interL X.data (ussL.map (interL t2)) := by
    rw [heq2]
    refine replaceAll_interL t1 X.data ht1ne _ ?_
    intro q hq
    rcases List.mem_map.mp hq with ⟨us, hus, rfl⟩
    have := hall us hus
    rw [Bool.and_eq_true, Bool.and_eq_true] at this
    exact ⟨(blockOk_of_pieceOkB this.1.1).1, (blockOk_of_pieceOkB this.1.1).2⟩
  -- step 2: the second replace distributes
  have step2 : replaceAllL t2 (jsToLower X.data) (interL X.data (ussL.map (interL t2))) =
      interL X.data ((ussL.map (interL t2)).map (replaceAllL t2 (jsToLower X.data))) := by
    refine replaceAll_interL2 t2 (jsToLower X.data) X.data ht2ne hX1 hX2 _ ?_
    intro q hq
    rcases List.mem_map.mp hq with ⟨us, hus, rfl⟩
    have := hall us hus
    rw [Bool.and_eq_true, Bool.and_eq_true] at this
    exact splitsClean_of_cleanTailB this.1.2
  -- step 3: each group rewrites to the lowercase interleave
  have step3 : (ussL.map (interL t2)).map (replaceAllL t2 (jsToLower X.data)) =
      ussL.map (interL (jsToLower X.data)) := by
    rw [List.map_map]
    refine List.map_congr_left fun us hus => ?_
    have := hall us hus
    rw [Bool.and_eq_true, Bool.and_eq_true, List.all_eq_true] at this
    refine replaceAll_interL t2 (jsToLower X.data) ht2ne us ?_
    intro u hu
    have h2 := this.2 u hu
    rw [Bool.and_eq_true] at h2
    exact ⟨(blockOk_of_pieceOkB h2.2).1, (blockOk_of_pieceOkB h2.2).2⟩
  have hrender : (renderComponentTemplate t X).data =
      (renderBlocks X.data (jsToLower X.data) ussL).flatten := by
    show (replaceAllL t2 (jsToLower X.data) (replaceAllL t1 X.data t.data)) = _
    rw [step1, step2, step3, renderBlocks_flatten]
  have hblocks : ∀ b ∈ renderBlocks X.data (jsToLower X.data) ussL,
      BlockOk t1 b ∧ BlockOk t2 b := by
    intro b hb
    rcases mem_renderBlocks hb with rfl | rfl | ⟨us, hus, hu⟩
    · exact ⟨⟨hasSub_false_of_not_mem ht1h (lbrace_not_mem_ident hX),
        splitsClean_of_not_mem ht1h (lbrace_not_mem_ident hX)⟩, hX1, hX2⟩
    · exact ⟨⟨hasSub_false_of_not_mem ht1h (lbrace_not_mem_lower hX),
        splitsClean_of_not_mem ht1h (lbrace_not_mem_lower hX)⟩,
        hasSub_false_of_not_mem ht2h (lbrace_not_mem_lower hX),
        splitsClean_of_not_mem ht2h (lbrace_not_mem_lower hX)⟩
    · have := hall us hus
      rw [Bool.and_eq_true, List.all_eq_true] at this
      have h2 := this.2 b hu
      rw [Bool.and_eq_true] at h2
      exact ⟨blockOk_of_pieceOkB h2.1, blockOk_of_pieceOkB h2.2⟩
  refine ⟨?_, ?_, ?_⟩
  · rw [hrender]
    exact hasSub_flatten_false t1 ht1ne _ fun b hb => (hblocks b hb).1
  · rw [hrender]
    exact hasSub_flatten_false t2 ht2ne _ fun b hb => (hblocks b hb).2
  · rw [hrender]
    rcases ussL with _ | ⟨us, _ | ⟨r, rest⟩⟩
    · exact absurd (of_decide_eq_true hlen2) (by simp)
    · exact absurd (of_decide_eq_true hlen2) (by simp)
    · exact hasSub_renderBlocks_self X.data (jsToLower X.data) us r rest

/-- Per-template certificates: each of the four component templates is its
piece decomposition and all pieces pass the decidable checks. -/
theorem tplSimple_cert : templateCert tplSimple ussSimple = true := by decide

theorem tplInteractive_cert : templateCert tplInteractive ussInteractive = true := by decide

theorem tplData_cert : templateCert tplData ussData = true := by decide

theorem tplForm_cert : templateCert tplForm ussForm = true := by decide

/-- The four supported template types. -/
def supportedTypes : List String := ["simple", "interactive", "data", "form"]

/-- Claim C7: for every supported template type and every non-empty
identifier component name `X`, the component source `createComponent` writes
(the first file, `<X>.tsx`) contains no occurrence of the raw placeholder
tokens and at least one occurrence of the literal string `X`.  (`X` ranges
over ordinary identifiers - letters, digits, underscore; characters special
to the JS replacement string, such as `$`, are not identifier characters
here.) -/
theorem c7_placeholders_substituted (ty : String) (opts : GenerationOptions) (X : String)
    (hty : ty ∈ supportedTypes) (hopt : opts.type = some ty) (hX : isIdentifier X = true) :
    ∃ content, (createComponent X opts).head? = some (X ++ ".tsx", content) ∧
      hasSub upperToken.data content.data = false ∧
      hasSub lowerToken.data content.data = false ∧
      hasSub X.data content.data = true := by
  refine ⟨renderComponentTemplate (templateFor ty) X, ?_, ?_⟩
  · rw [createComponent, hopt]
    simp
  · simp only [supportedTypes, List.mem_cons, List.mem_singleton,
      List.not_mem_nil, or_false] at hty
    rcases hty with rfl | rfl | rfl | rfl
    · rw [show templateFor "simple" = tplSimple from rfl]
      exact render_clean tplSimple ussSimple tplSimple_cert X hX
    · rw [show templateFor "interactive" = tplInteractive from rfl]
      exact render_clean tplInteractive ussInteractive tplInteractive_cert X hX
    · rw [show templateFor "data" = tplData from rfl]
      exact render_clean tplData ussData tplData_cert X hX
    · rw [show templateFor "form" = tplForm from rfl]
      exact render_clean tplForm ussForm tplForm_cert X hX

/-- Witness for `c7_placeholders_substituted` at the `simple` template and
the name `Button`. -/
theorem c7_placeholders_substituted_witness :
    "simple" ∈ supportedTypes ∧ isIdentifier "Button" = true ∧
      ∃ content,
        (createComponent "Button" (GenerationOptions.mk (some "simple") none none)).head?
            = some ("Button" ++ ".tsx", content) ∧
          hasSub upperToken.data content.data = false ∧
          hasSub lowerToken.data content.data = false ∧
          hasSub "Button".data content.data = true :=
  ⟨by decide, by decide,
    c7_placeholders_substituted "simple" (GenerationOptions.mk (some "simple") none none)
      "Button" (by decide) rfl (by decide)⟩


end CCSkills
